import Mathlib

/-!
Shallow embedding of the real-time industrial polling and alerting engine:
the alert engine, data buffer and notification routing of
`src/realtime_monitoring.py`, and the Modbus codecs of
`src/industrial_protocols.py`.  Timestamps (`datetime`) are modelled as
natural numbers counting seconds; `timedelta(minutes=m)` is `m * 60`.
Monitored values are modelled as integers (the claims only involve
integer-valued comparisons).  Python dictionaries are modelled as
insertion-ordered association lists.
-/

namespace Scada

/-- The `AlertPriority` enum (realtime_monitoring.py, lines 33-39). -/
inductive AlertPriority
| low
| medium
| high
| critical
| emergency
deriving DecidableEq

/-- The numeric value of each `AlertPriority` member, as declared in the enum. -/
def AlertPriority.value : AlertPriority → Nat
| .low => 1
| .medium => 2
| .high => 3
| .critical => 4
| .emergency => 5

/-- The `AlertType` enum (lines 41-49). -/
inductive AlertType
| systemFault
| processAlarm
| securityBreach
| equipmentFailure
| qualityDeviation
| maintenanceDue
| performanceDegradation
deriving DecidableEq

/-- The `MonitoringData` dataclass (lines 103-110). -/
structure MonitoringData where
  pointId : String
  timestamp : Nat
  value : Int
  quality : String := "GOOD"
  status : String := "ONLINE"
deriving DecidableEq

/-- A snapshot of latest data per point, as produced by
`DataBuffer.get_all_latest` and consumed by `evaluate_alerts`:
a Python dict keyed by point id, in insertion order. -/
abbrev Snapshot := List (String × MonitoringData)

/-- The condition sub-language of alert rules.  The Python source stores a
rule condition as a source-code string and evaluates it with `eval` in a
context exposing `get_value`; the fragment the engine is exercised with
consists of comparisons `get_value(<pointId>) > <constant>` and the
constant-true condition.  `Cond.text` below reproduces the stored source
string, which the engine also inspects textually. -/
inductive Cond
| gtConst (pointId : String) (c : Int)
| alwaysTrue
deriving DecidableEq

/-- A single-quote character, used when rendering condition source text. -/
def squote : String := String.singleton (Char.ofNat 39)

/-- The Python source text of a condition, e.g. the string
`get_value(<q>T001<q>) > 95` where `<q>` is a single quote. -/
def Cond.text : Cond → String
| .gtConst p c => "get_value(" ++ squote ++ p ++ squote ++ ") > " ++ toString c
| .alwaysTrue => "True"

/-- The `get_value` accessor of the evaluation context (line 202): a missing
point id yields the default `MonitoringData("", now, 0)`, whose value is 0. -/
def getValue (data : Snapshot) (pid : String) : Int :=
  match data.lookup pid with
  | some d => d.value
  | none => 0

/-- Evaluation of a rule condition against the snapshot, matching the
Python `eval` of the condition string in the context of line 199-204. -/
def Cond.eval (c : Cond) (data : Snapshot) : Bool :=
  match c with
  | .gtConst p k => getValue data p > k
  | .alwaysTrue => true

/-- The `AlertRule` dataclass (lines 73-84). -/
structure AlertRule where
  ruleId : String
  name : String
  condition : Cond
  alertType : AlertType
  priority : AlertPriority
  messageTemplate : String
  cooldownMinutes : Nat := 5
  enabled : Bool := true
  acknowledgementRequired : Bool := false
deriving DecidableEq

/-- The `Alert` dataclass (lines 86-101).  Note that it declares no
`acknowledgement_required` field. -/
structure Alert where
  alertId : String
  ruleId : String
  timestamp : Nat
  alertType : AlertType
  priority : AlertPriority
  message : String
  sourcePoint : String
  currentValue : Option Int
  acknowledged : Bool := false
  acknowledgedBy : Option String := none
  acknowledgedTime : Option Nat := none
  resolved : Bool := false
  resolvedTime : Option Nat := none
deriving DecidableEq

/-- The construction of the alert instance inside `AlertManager._trigger_alert`
(lines 234-244).  The Python call passes the keyword argument
`acknowledgement_required=rule.acknowledgement_required`, but the `Alert`
dataclass (lines 86-101) declares no such field, so the call raises
`TypeError` before any alert object exists; the exception propagates out of
`_trigger_alert` into the `try`/`except` of `evaluate_alerts`.  Modelled as
returning `none`: no alert value is ever produced. -/
def mkAlertWithAckKeyword (_alertId _ruleId : String) (_timestamp : Nat)
    (_alertType : AlertType) (_priority : AlertPriority)
    (_message _sourcePoint : String) (_currentValue : Option Int)
    (_ackRequired : Bool) : Option Alert :=
  none

/-- State of `AlertManager` (lines 166-172).  Python keeps alert objects by
reference: `active_alerts` and `alert_history` alias the same objects, so
field mutations are visible through both.  We model the object store
`alerts` (every alert ever created, keyed by alert id) plus the id lists of
the active set, the history, the cooldown tracker and the notification
queue. -/
structure AlertManager where
  alertRules : List AlertRule
  alerts : List (String × Alert) := []
  activeIds : List String := []
  historyIds : List String := []
  cooldownTracker : List (String × Nat) := []
  alertQueue : List String := []
deriving DecidableEq

/-- In-place update of the value stored under a given key of a Python
dict, leaving its position unchanged. -/
def updateEntry {β : Type} (l : List (String × β)) (k : String)
    (f : β → β) : List (String × β) :=
  l.map (fun p => if p.1 = k then (p.1, f p.2) else p)

/-- In-place update of the alert object stored under a given id. -/
def updateAlert (store : List (String × Alert)) (aid : String)
    (f : Alert → Alert) : List (String × Alert) :=
  updateEntry store aid f

/-- Python dict assignment `d[k] = v`: overwrite in place if the key exists,
otherwise append. -/
def dictInsert (d : List (String × Nat)) (k : String) (v : Nat) :
    List (String × Nat) :=
  if (d.lookup k).isSome then updateEntry d k (fun _ => v)
  else d ++ [(k, v)]

/-- Whether `needle` occurs at the head of `hay`. -/
def matchesAt : List Char → List Char → Bool
| [], _ => true
| _ :: _, [] => false
| a :: as, b :: bs => a = b && matchesAt as bs

/-- Whether `needle` occurs contiguously anywhere in `hay`. -/
def hasSubList : List Char → List Char → Bool
| [], needle => needle.isEmpty
| c :: rest, needle => matchesAt needle (c :: rest) || hasSubList rest needle

/-- The Python substring test `sub in s`. -/
def strContains (s sub : String) : Bool :=
  hasSubList s.toList sub.toList

/-- Source-point resolution in `_trigger_alert` (lines 217-225): the first
point of the snapshot whose id occurs as a substring of the condition
source text, with its current value; `("unknown", None)` if none matches. -/
def findSourcePoint (data : Snapshot) (cond : Cond) : String × Option Int :=
  match data.find? (fun p => strContains cond.text p.1) with
  | some p => (p.1, some p.2.value)
  | none => ("unknown", none)

/-- Python `str` applied to the current value (`None` prints as `None`). -/
def pyStr : Option Int → String
| some v => toString v
| none => "None"

/-- The call `rule.message_template.format(value=..., point=..., time=...)`
(lines 228-232), with the time argument rendered from the model clock. -/
def formatMessage (template : String) (value : Option Int)
    (point timeStr : String) : String :=
  ((template.replace "\x7bvalue\x7d" (pyStr value)).replace
    "\x7bpoint\x7d" point).replace "\x7btime\x7d" timeStr

/-- `AlertManager._trigger_alert` (lines 213-256): computes the alert id,
source point and formatted message, then constructs the alert instance.
Because the construction raises (see `mkAlertWithAckKeyword`), none of the
subsequent statements - storing into `active_alerts` and `alert_history`,
setting the cooldown, queueing for notification - are reached; `none`
models the escaping exception. -/
def triggerAlert (now : Nat) (rule : AlertRule) (data : Snapshot)
    (m : AlertManager) : Option AlertManager :=
  let alertId := rule.ruleId ++ "_" ++ toString now
  let sp := findSourcePoint data rule.condition
  let message := formatMessage rule.messageTemplate sp.2 sp.1 (toString now)
  match mkAlertWithAckKeyword alertId rule.ruleId now rule.alertType
      rule.priority message sp.1 sp.2 rule.acknowledgementRequired with
  | none => none
  | some alert =>
    some { m with
      alerts := m.alerts ++ [(alertId, alert)]
      activeIds := m.activeIds ++ [alertId]
      historyIds := m.historyIds ++ [alertId]
      cooldownTracker := dictInsert m.cooldownTracker rule.ruleId now
      alertQueue := m.alertQueue ++ [alertId] }

/-- The cooldown test of `evaluate_alerts` (lines 191-195). -/
def inCooldown (now : Nat) (tracker : List (String × Nat))
    (rule : AlertRule) : Bool :=
  match tracker.lookup rule.ruleId with
  | some t => now < t + rule.cooldownMinutes * 60
  | none => false

/-- The body of the rule loop of `AlertManager.evaluate_alerts`
(lines 187-211) for one rule: skip disabled rules and rules in cooldown;
otherwise evaluate the condition, and on `true` call `_trigger_alert`;
an exception escaping the `try` block (as the alert construction does)
is caught and logged, leaving the state unchanged. -/
def evalStep (now : Nat) (data : Snapshot) (st : AlertManager)
    (rule : AlertRule) : AlertManager :=
  if rule.enabled = false then st
  else if inCooldown now st.cooldownTracker rule then st
  else if rule.condition.eval data then
    match triggerAlert now rule data st with
    | some st2 => st2
    | none => st
  else st

/-- `AlertManager.evaluate_alerts` (lines 185-211): the rule loop. -/
def evaluateAlerts (now : Nat) (data : Snapshot) (st : AlertManager) :
    AlertManager :=
  st.alertRules.foldl (evalStep now data) st

/-- `AlertManager.acknowledge_alert` (lines 258-269). -/
def acknowledgeAlert (now : Nat) (m : AlertManager)
    (alertId acknowledgedBy : String) : Bool × AlertManager :=
  if alertId ∈ m.activeIds then
    (true, { m with
      alerts := updateAlert m.alerts alertId (fun a =>
        { a with acknowledged := true
                 acknowledgedBy := some acknowledgedBy
                 acknowledgedTime := some now }) })
  else (false, m)

/-- `AlertManager.resolve_alert` (lines 271-284). -/
def resolveAlert (now : Nat) (m : AlertManager) (alertId : String) :
    Bool × AlertManager :=
  if alertId ∈ m.activeIds then
    (true, { m with
      alerts := updateAlert m.alerts alertId (fun a =>
        { a with resolved := true, resolvedTime := some now })
      activeIds := m.activeIds.erase alertId })
  else (false, m)

/-- The list `list(self.active_alerts.values())` (line 288). -/
def activeAlertValues (m : AlertManager) : List Alert :=
  m.activeIds.filterMap (fun aid => m.alerts.lookup aid)

/-- The comparison realised by Python
`sorted(key=lambda x: (x.priority.value, x.timestamp), reverse=True)`:
`a` may precede `b` exactly when the key of `b` is lexicographically at
most the key of `a`. -/
def alertSortKeyLe (a b : Alert) : Bool :=
  decide (b.priority.value < a.priority.value ∨
    (b.priority.value = a.priority.value ∧ b.timestamp ≤ a.timestamp))

/-- `AlertManager.get_active_alerts` (lines 286-293): optional priority
filter, then the descending stable sort on `(priority.value, timestamp)`. -/
def getActiveAlerts (m : AlertManager) (priorityFilter : Option AlertPriority) :
    List Alert :=
  let alerts : List Alert := activeAlertValues m
  let alerts : List Alert := match priorityFilter with
    | some p => alerts.filter (fun (a : Alert) => a.priority = p)
    | none => alerts
  alerts.mergeSort alertSortKeyLe

/-- The `DataBuffer` of realtime_monitoring.py (lines 112-161): per-point
bounded sample lists keyed by point id (a Python dict, insertion ordered),
with a shared capacity `max_size` defaulting to 10000.  The per-point locks
are concurrency scaffolding with no sequential effect and are not
modelled. -/
structure DataBuffer where
  maxSize : Nat := 10000
  buffer : List (String × List MonitoringData) := []
deriving DecidableEq

/-- The sample list currently held for a point (empty if the point has no
entry yet). -/
def DataBuffer.points (b : DataBuffer) (pid : String) : List MonitoringData :=
  (b.buffer.lookup pid).getD []

/-- The per-point core of `DataBuffer.add_point` (lines 126-131): append the
sample, then if the length exceeds `max_size` drop the oldest entry
(`pop(0)`). -/
def bufAppend (maxSize : Nat) (cur : List MonitoringData)
    (d : MonitoringData) : List MonitoringData :=
  if maxSize < (cur ++ [d]).length then (cur ++ [d]).tail else cur ++ [d]

/-- `DataBuffer.add_point` (lines 120-131): create the point entry on first
use, then append under the bound. -/
def DataBuffer.addPoint (b : DataBuffer) (pid : String) (d : MonitoringData) :
    DataBuffer :=
  let ensured := if (b.buffer.lookup pid).isSome then b.buffer
    else b.buffer ++ [(pid, [])]
  { b with buffer := updateEntry ensured pid (fun cur => bufAppend b.maxSize cur d) }

/-- `DataBuffer.get_latest` (lines 133-139): the most recent sample of a
point, `None` when the point is unknown or its list is empty. -/
def DataBuffer.getLatest (b : DataBuffer) (pid : String) :
    Option MonitoringData :=
  (b.points pid).getLast?

/-- Inserting a sequence of samples for one point, oldest first. -/
def addAll (pid : String) (l : List MonitoringData) (b : DataBuffer) :
    DataBuffer :=
  l.foldl (fun bb d => bb.addPoint pid d) b

/-- Outcome of one scheduled read of a monitoring point: the value read, or
an exception (timeout, connection error, decode failure) raised inside the
loop body. -/
inductive ReadOutcome
| ok (value : Int)
| failure (msg : String)
deriving DecidableEq

/-- The `MonitoringData` built for a successful read (lines 575-581): the
sample is stamped with the current time at creation, quality `GOOD`,
status `ONLINE`. -/
def stampSample (pid : String) (now : Nat) (v : Int) : MonitoringData :=
  { pointId := pid, timestamp := now, value := v
    quality := "GOOD", status := "ONLINE" }

/-- One iteration of the `scan_loop` body of
`RealTimeMonitoringSystem._start_point_scanner` (lines 569-599): a
successful read appends a `GOOD`/`ONLINE` sample stamped with the current
time; any exception raised in the body is caught by the `except` clause,
logged, and the loop sleeps one second and continues - nothing at all is
recorded in the buffer for that iteration, and no retry is attempted. -/
def scanStep (pid : String) (outcome : ReadOutcome) (now : Nat)
    (buf : DataBuffer) : DataBuffer :=
  match outcome with
  | .ok v => buf.addPoint pid (stampSample pid now v)
  | .failure _ => buf

/-- A run of the scan loop for one point: each event pairs the clock value
at which the iteration stamps its sample with the outcome of the read. -/
def scanTrace (pid : String) (events : List (Nat × ReadOutcome))
    (buf : DataBuffer) : DataBuffer :=
  events.foldl (fun b e => scanStep pid e.2 e.1 b) buf

/-- The `GOOD` samples a scan trace appends, in order, stamped with their
clock values (failed iterations append nothing). -/
def okSamples (pid : String) (events : List (Nat × ReadOutcome)) :
    List MonitoringData :=
  events.filterMap (fun e =>
    match e.2 with
    | .ok v => some (stampSample pid e.1 v)
    | .failure _ => none)

/-- Notification channels of the dispatcher
(`NotificationSystem` and the WebSocket broadcast). -/
inductive Channel
| webhook
| email
| sms
| broadcast
deriving DecidableEq

/-- `RealTimeMonitoringSystem._process_alert_notification` (lines 668-693):
the sequence of channel sends performed for one alert.  In the source, the
`EMERGENCY`/`CRITICAL` branch and the `HIGH` branch each execute only
`send_webhook_alert` - the `send_email_alert` and `send_sms_alert` calls
are commented out - and every branch is followed by `_broadcast_alert` to
the WebSocket clients. -/
def processAlertNotification (a : Alert) : List Channel :=
  (if a.priority = AlertPriority.emergency ∨
      a.priority = AlertPriority.critical then
    [Channel.webhook]
  else if a.priority = AlertPriority.high then
    [Channel.webhook]
  else
    [Channel.webhook]) ++ [Channel.broadcast]

/-- One round of the Modbus CRC-16 bit loop (industrial_protocols.py,
lines 164-168): shift right, conditionally folding in polynomial 0xA001. -/
def crcStep (crc : Nat) : Nat :=
  if crc % 2 = 1 then (crc / 2) ^^^ 0xA001 else crc / 2

/-- Processing of one byte in `ModbusRTUProtocol._calculate_crc`
(lines 162-168): xor the byte in, then eight bit rounds. -/
def crcByte (crc b : Nat) : Nat :=
  crcStep^[8] (crc ^^^ b)

/-- `ModbusRTUProtocol._calculate_crc` (lines 159-169): CRC-16 with initial
value 0xFFFF, polynomial 0xA001, LSB-first per byte. -/
def calculateCrc (data : List Nat) : Nat :=
  data.foldl crcByte 0xFFFF

/-- The bytes of `struct.pack` for one big-endian 16-bit word (the argument
must be below 65536, as `struct.pack` enforces). -/
def beWordBytes (v : Nat) : List Nat :=
  [v / 256, v % 256]

/-- `struct.unpack` of one big-endian 16-bit word. -/
def beWord (b0 b1 : Nat) : Nat := 256 * b0 + b1

/-- `struct.unpack` of one little-endian 16-bit word. -/
def leWord (b0 b1 : Nat) : Nat := b0 + 256 * b1

/-- The register-payload loop shared by both Modbus decoders
(lines 98-101 and 194-197): `for i in range(0, len(data), 2)` unpacking
big-endian 16-bit words.  When the data has odd length, the final
`data[i:i+2]` slice holds a single byte, `struct.unpack` raises, and the
enclosing `try`/`except` turns the read into a `None` result: modelled as
`none`. -/
def parseWords : List Nat → Option (List Nat)
| [] => some []
| [_] => none
| b0 :: b1 :: rest => (parseWords rest).map (fun vs => beWord b0 b1 :: vs)

/-- The two trailing CRC bytes of a received RTU frame, decoded
little-endian as in `struct.unpack` of `response[-2:]` (line 188). -/
def receivedCrcOf (resp : List Nat) : Nat :=
  leWord ((resp.drop (resp.length - 2)).getD 0 0)
    ((resp.drop (resp.length - 2)).getD 1 0)

/-- The CRC recomputed over `response[:-2]` (lines 187-189). -/
def computedCrcOf (resp : List Nat) : Nat :=
  calculateCrc (resp.take (resp.length - 2))

/-- The response handling of `ModbusRTUProtocol.read_input_registers`
(lines 185-200): require at least 5 bytes, require the received trailing
CRC to equal the recomputed CRC and the function-code byte to be 4, then
parse the byte-count-prefixed register payload; every other case yields
`None`. -/
def decodeRTUResponse (resp : List Nat) : Option (List Nat) :=
  if 5 ≤ resp.length then
    if receivedCrcOf resp = computedCrcOf resp ∧ resp.getD 1 0 = 4 then
      parseWords ((resp.drop 3).take (resp.getD 2 0))
    else none
  else none

/-- The request frame built by `ModbusRTUProtocol.read_input_registers`
(lines 175-178): unit id, function code 4, big-endian address and count,
then the CRC appended little-endian. -/
def encodeRTURequest (unitId address count : Nat) : List Nat :=
  let fd := [unitId, 4] ++ beWordBytes address ++ beWordBytes count
  fd ++ [calculateCrc fd % 256, calculateCrc fd / 256]

/-- Consecutive big-endian 16-bit words as a byte sequence (the server-side
inverse of `parseWords`). -/
def wordsToBytes : List Nat → List Nat
| [] => []
| v :: rest => beWordBytes v ++ wordsToBytes rest

/-- Modelled from the spec: the Modbus RTU read-input-registers server
response frame - unit id, function code 0x04, byte count, big-endian
16-bit register values, trailing CRC-16 appended little-endian.  The
repository implements only the client side of the exchange (the decoder
above), so the server-side encoder required by the round-trip property is
taken from the frame description of the spec. -/
def encodeRTUResponse (unitId : Nat) (values : List Nat) : List Nat :=
  let body := [unitId, 4, 2 * values.length] ++ wordsToBytes values
  body ++ [calculateCrc body % 256, calculateCrc body / 256]

/-- The request frame built by `ModbusTCPProtocol.read_holding_registers`
(lines 74-86): `struct.pack` of the MBAP header (transaction id, protocol
id 0, length 6, unit id) followed by the PDU (function code 3, big-endian
address and count). -/
def encodeReadHoldingRegisters (transactionId unitId address count : Nat) :
    List Nat :=
  beWordBytes transactionId ++ beWordBytes 0 ++ beWordBytes 6 ++ [unitId]
    ++ [3] ++ beWordBytes address ++ beWordBytes count

/-- The response handling of `ModbusTCPProtocol.read_holding_registers`
(lines 93-104): require at least 9 bytes and function-code byte 3 at
offset 7, then parse the byte-count-prefixed register payload starting at
offset 9; every other case yields `None`. -/
def decodeTCPResponse (resp : List Nat) : Option (List Nat) :=
  if 9 ≤ resp.length then
    if resp.getD 7 0 = 3 then
      parseWords ((resp.drop 9).take (resp.getD 8 0))
    else none
  else none

/-- Modelled from the spec: a well-formed Modbus TCP read-holding-registers
server response - MBAP header echoing the transaction id, protocol id 0,
length 3 + 2*count, unit id; then function code 0x03, byte count 2*count
and the big-endian register values.  The repository implements only the
client side, so the server encoder required by the round-trip property is
taken from the response description of the spec. -/
def serverEncodeTCPResponse (transactionId unitId : Nat)
    (values : List Nat) : List Nat :=
  beWordBytes transactionId ++ beWordBytes 0
    ++ beWordBytes (3 + 2 * values.length) ++ [unitId]
    ++ [3, 2 * values.length] ++ wordsToBytes values

/-- Running the one-second evaluation cadence of `_alert_evaluation_loop`
(lines 634-648) at the given clock values against a fixed snapshot. -/
def runCycles (data : Snapshot) (m : AlertManager) (times : List Nat) :
    AlertManager :=
  times.foldl (fun s t => evaluateAlerts t data s) m

/-- The `T001` reactor-temperature sample of the spec scenario, value 96. -/
def t001Data : MonitoringData :=
  { pointId := "T001", timestamp := 0, value := 96 }

/-- The snapshot containing only `T001` at value 96. -/
def scenarioSnapshot : Snapshot := [("T001", t001Data)]

/-- The `TEMP_HIGH` rule of the source example block (lines 839-847). -/
def tempHighRule : AlertRule :=
  { ruleId := "TEMP_HIGH"
    name := "High Temperature Alert"
    condition := Cond.gtConst "T001" 95
    alertType := AlertType.processAlarm
    priority := AlertPriority.critical
    messageTemplate := "Temperature alarm: \x7bvalue\x7d at point \x7bpoint\x7d"
    cooldownMinutes := 5
    enabled := true
    acknowledgementRequired := true }

/-- A fresh alert manager holding only the `TEMP_HIGH` rule. -/
def scenarioManager : AlertManager := { alertRules := [tempHighRule] }

/-- A rule whose condition is permanently true, with the default
five-minute cooldown. -/
def flappingRule : AlertRule :=
  { ruleId := "R1"
    name := "Always True"
    condition := Cond.alwaysTrue
    alertType := AlertType.systemFault
    priority := AlertPriority.high
    messageTemplate := "flap"
    cooldownMinutes := 5 }

/-- A fresh alert manager holding only the permanently-true rule. -/
def flappingManager : AlertManager := { alertRules := [flappingRule] }

/-- A concrete CRITICAL alert, used to evaluate the notification routing. -/
def criticalAlert : Alert :=
  { alertId := "TEMP_HIGH_0"
    ruleId := "TEMP_HIGH"
    timestamp := 0
    alertType := AlertType.processAlarm
    priority := AlertPriority.critical
    message := "Temperature alarm: 96 at point T001"
    sourcePoint := "T001"
    currentValue := some 96 }

/-- A fresh data buffer with the default capacity. -/
def emptyBuffer : DataBuffer := {}

/-- A sample for point `P` stamped at the given time. -/
def sampleAt (t : Nat) : MonitoringData :=
  { pointId := "P", timestamp := t, value := 0 }

/-- A concrete alert sitting in the active set. -/
def baseAlert : Alert :=
  { alertId := "A1"
    ruleId := "R1"
    timestamp := 0
    alertType := AlertType.processAlarm
    priority := AlertPriority.high
    message := "m"
    sourcePoint := "P"
    currentValue := some 1 }

/-- An alert manager with exactly one active alert, id `A1`. -/
def mgrOneActive : AlertManager :=
  { alertRules := []
    alerts := [("A1", baseAlert)]
    activeIds := ["A1"]
    historyIds := ["A1"] }

/-- A concrete scan trace: two successful reads around one failed read. -/
def traceEvents : List (Nat × ReadOutcome) :=
  [(0, ReadOutcome.ok 1), (1, ReadOutcome.failure "timeout"),
   (2, ReadOutcome.ok 5)]

/-! Helper lemmas about the alert engine. -/

theorem triggerAlert_eq_none (now : Nat) (rule : AlertRule) (data : Snapshot)
    (m : AlertManager) : triggerAlert now rule data m = none := rfl

theorem evalStep_eq (now : Nat) (data : Snapshot) (st : AlertManager)
    (rule : AlertRule) : evalStep now data st rule = st := by
  unfold evalStep
  split
  · rfl
  · split
    · rfl
    · split
      · rw [triggerAlert_eq_none]
      · rfl

theorem foldl_evalStep_eq (now : Nat) (data : Snapshot) :
    ∀ (l : List AlertRule) (st : AlertManager),
      l.foldl (evalStep now data) st = st := by
  intro l
  induction l with
  | nil => intro st; rfl
  | cons r l ih =>
    intro st
    rw [List.foldl_cons, evalStep_eq]
    exact ih st

theorem evaluateAlerts_eq (now : Nat) (data : Snapshot) (st : AlertManager) :
    evaluateAlerts now data st = st :=
  foldl_evalStep_eq now data st.alertRules st

theorem runCycles_eq (data : Snapshot) :
    ∀ (times : List Nat) (m : AlertManager), runCycles data m times = m := by
  intro times
  induction times with
  | nil => intro m; rfl
  | cons t ts ih =>
    intro m
    show (t :: ts).foldl (fun s t => evaluateAlerts t data s) m = m
    rw [List.foldl_cons, evaluateAlerts_eq]
    exact ih m

/-- C1: on a true evaluation of an enabled rule outside cooldown, the engine
is claimed to create an Active alert, store it, start the cooldown and
enqueue it; in the `T001 = 96` scenario one cycle should yield one Active
CRITICAL alert.  The code instead raises `TypeError` inside
`_trigger_alert` (the `Alert` dataclass has no `acknowledgement_required`
field), the exception is caught in `evaluate_alerts`, and no alert, no
cooldown entry and no queue entry is ever produced: the condition evaluates
true, yet the evaluation cycle leaves the manager unchanged. -/
theorem trigger_scenario_produces_no_alert :
    Cond.eval tempHighRule.condition scenarioSnapshot = true ∧
    triggerAlert 0 tempHighRule scenarioSnapshot scenarioManager = none ∧
    evaluateAlerts 0 scenarioSnapshot scenarioManager = scenarioManager ∧
    (evaluateAlerts 0 scenarioSnapshot scenarioManager).activeIds = [] ∧
    (evaluateAlerts 0 scenarioSnapshot scenarioManager).alertQueue = [] := by
  refine ⟨by decide, rfl, evaluateAlerts_eq 0 scenarioSnapshot scenarioManager,
    ?_, ?_⟩ <;> rw [evaluateAlerts_eq] <;> rfl

/-- C2: with a permanently-true condition and `cooldown_minutes = 5`,
evaluating once per second for 10 minutes is claimed to create exactly 2
Active alerts.  Because every call of `_trigger_alert` raises `TypeError`
before any state change, the code creates 0 alerts over the 600 cycles,
not 2. -/
theorem cooldown_cycles_create_zero_alerts :
    (runCycles [] flappingManager (List.range 600)).historyIds.length = 0 ∧
    (runCycles [] flappingManager (List.range 600)).historyIds.length ≠ 2 := by
  rw [runCycles_eq]
  exact ⟨rfl, by decide⟩

/-- C4 counterexample: the claim routes EMERGENCY/CRITICAL alerts to all
configured channels (webhook, email, SMS, live broadcast).  For a concrete
CRITICAL alert the dispatcher sends webhook and the WebSocket broadcast
only - the email and SMS sends never happen. -/
theorem critical_alert_not_sent_to_all_channels :
    processAlertNotification criticalAlert =
      [Channel.webhook, Channel.broadcast] ∧
    Channel.email ∉ processAlertNotification criticalAlert ∧
    Channel.sms ∉ processAlertNotification criticalAlert := by
  decide

/-- C4 as amended: every alert, regardless of priority, is dispatched to
the webhook channel and broadcast to the WebSocket subscribers, and to
nothing else; the email and SMS calls of the source are commented out in
every priority branch. -/
theorem notification_routing_webhook_and_broadcast :
    ∀ a : Alert,
      processAlertNotification a = [Channel.webhook, Channel.broadcast] := by
  intro a
  unfold processAlertNotification
  split
  · rfl
  · split <;> rfl

/-- C5 counterexample: the claim says that after a failed read (retries
exhausted) a sample with quality BAD and status OFFLINE is recorded in the
point's buffer.  For a concrete failing read the scan iteration leaves the
buffer unchanged and records no sample at all, BAD or otherwise. -/
theorem scan_failure_records_no_sample :
    scanStep "P1" (ReadOutcome.failure "timeout") 5 emptyBuffer =
      emptyBuffer ∧
    ¬ ∃ d ∈ (scanStep "P1" (ReadOutcome.failure "timeout") 5
        emptyBuffer).points "P1", d.quality = "BAD" ∧ d.status = "OFFLINE" := by
  exact ⟨rfl, by decide⟩

/-- C5 as amended: a read failure is caught inside the scan loop, which
logs it, sleeps one second and continues with the buffer unchanged; no
retry is attempted, the connection is not re-established, and no
BAD/OFFLINE sample is recorded (`read_holding_registers` makes a single
attempt and returns None on any failure). -/
theorem scan_failure_leaves_buffer_unchanged :
    ∀ (pid msg : String) (now : Nat) (buf : DataBuffer),
      scanStep pid (ReadOutcome.failure msg) now buf = buf :=
  fun _ _ _ _ => rfl

/-! Helper lemmas about the data buffer. -/

theorem lookup_updateEntry {β : Type} (l : List (String × β)) (k : String)
    (f : β → β) :
    (updateEntry l k f).lookup k = (l.lookup k).map f := by
  induction l with
  | nil => rfl
  | cons p l ih =>
    obtain ⟨pk, pv⟩ := p
    by_cases h : pk = k
    · subst h
      simp [updateEntry, List.lookup_cons]
    · simp only [updateEntry, List.map_cons] at ih ⊢
      rw [if_neg (by simpa using h)]
      simp [List.lookup_cons, beq_false_of_ne (Ne.symm h), ih]

theorem lookup_append_of_eq_none {β : Type} (l₁ l₂ : List (String × β))
    (k : String) (h : l₁.lookup k = none) :
    (l₁ ++ l₂).lookup k = l₂.lookup k := by
  induction l₁ with
  | nil => rfl
  | cons p l ih =>
    obtain ⟨pk, pv⟩ := p
    by_cases hk : pk = k
    · subst hk
      simp [List.lookup_cons] at h
    · simp only [List.cons_append, List.lookup_cons,
        beq_false_of_ne (Ne.symm hk)] at h ⊢
      exact ih h

theorem addPoint_maxSize (b : DataBuffer) (pid : String)
    (d : MonitoringData) : (b.addPoint pid d).maxSize = b.maxSize := rfl

theorem addPoint_points_self (b : DataBuffer) (pid : String)
    (d : MonitoringData) :
    (b.addPoint pid d).points pid = bufAppend b.maxSize (b.points pid) d := by
  unfold DataBuffer.addPoint DataBuffer.points
  cases hl : b.buffer.lookup pid with
  | some v =>
    simp only [hl, Option.isSome_some, if_true]
    rw [lookup_updateEntry, hl]
    rfl
  | none =>
    simp only [hl, Option.isSome_none, Bool.false_eq_true, if_false]
    unfold updateEntry
    rw [List.map_append, lookup_append_of_eq_none]
    · simp [hl]
    · have : (updateEntry b.buffer pid
          (fun cur => bufAppend b.maxSize cur d)).lookup pid = none := by
        rw [lookup_updateEntry, hl]
        rfl
      exact this

theorem foldl_bufAppend_eq_drop (N : Nat) (l : List MonitoringData) :
    l.foldl (bufAppend N) [] = l.drop (l.length - N) := by
  induction l using List.reverseRecOn with
  | nil => simp
  | append_singleton l d ih =>
    rw [List.foldl_concat, ih]
    by_cases h : l.length + 1 ≤ N
    · have h1 : l.length - N = 0 := by omega
      have h2 : (l ++ [d]).length - N = 0 := by simp; omega
      rw [h1, h2, List.drop_zero, List.drop_zero]
      unfold bufAppend
      rw [if_neg (by simp; omega)]
    · have hN : N ≤ l.length := by omega
      have hcur : (l.drop (l.length - N)).length = N := by
        rw [List.length_drop]; omega
      unfold bufAppend
      rw [if_pos (by simp [hcur])]
      rcases Nat.eq_zero_or_pos N with hz | hpos
      · subst hz
        have : l.drop (l.length - 0) = [] := by
          simp [List.drop_length]
        rw [this]
        have : (l ++ [d]).length - 0 = (l ++ [d]).length := by omega
        rw [this, List.drop_length]
        rfl
      · obtain ⟨c, cur, hc⟩ : ∃ c cur, l.drop (l.length - N) = c :: cur := by
          cases hcl : l.drop (l.length - N) with
          | nil => rw [hcl] at hcur; simp at hcur; omega
          | cons c cur => exact ⟨c, cur, rfl⟩
        rw [hc]
        have htail : (c :: cur ++ [d]).tail = cur ++ [d] := rfl
        rw [htail]
        have hdrop1 : cur = l.drop (l.length - N + 1) := by
          have := List.tail_drop l (l.length - N)
          rw [hc] at this
          simpa using this
        rw [hdrop1]
        rw [List.drop_append_eq_append_drop]
        have h2 : (l ++ [d]).length - N = l.length - N + 1 := by simp; omega
        rw [h2]
        have h3 : l.length - N + 1 - l.length = 0 := by omega
        rw [h3, List.drop_zero]

theorem addAll_points (pid : String) (l : List MonitoringData)
    (b : DataBuffer) :
    (addAll pid l b).points pid =
      l.foldl (bufAppend b.maxSize) (b.points pid) := by
  induction l generalizing b with
  | nil => rfl
  | cons d l ih =>
    show (addAll pid l (b.addPoint pid d)).points pid = _
    rw [ih (b.addPoint pid d), addPoint_points_self, List.foldl_cons]
    rfl

/-- C3: the per-point buffer never exceeds the capacity `max_size`; adding
a sample to a full buffer evicts exactly the oldest sample and appends the
new one; and inserting N+1 samples into an empty buffer of capacity N
leaves exactly the last N samples, oldest evicted, newest retained, in
insertion order. -/
theorem dataBuffer_bounded_fifo :
    (∀ (b : DataBuffer) (pid : String) (d : MonitoringData),
        (b.points pid).length ≤ b.maxSize →
        ((b.addPoint pid d).points pid).length ≤ b.maxSize) ∧
    (∀ (b : DataBuffer) (pid : String) (d : MonitoringData),
        0 < b.maxSize → (b.points pid).length = b.maxSize →
        (b.addPoint pid d).points pid = (b.points pid).tail ++ [d]) ∧
    (∀ (N : Nat) (pid : String) (l : List MonitoringData),
        l.length = N + 1 →
        (addAll pid l { maxSize := N, buffer := [] }).points pid = l.tail) := by
  refine ⟨?_, ?_, ?_⟩
  · intro b pid d h
    rw [addPoint_points_self]
    unfold bufAppend
    split
    · simp
      omega
    · simp at *
      omega
  · intro b pid d hpos h
    rw [addPoint_points_self]
    unfold bufAppend
    rw [if_pos (by simp [h])]
    cases hc : b.points pid with
    | nil => rw [hc] at h; simp at h; omega
    | cons c cur => rfl
  · intro N pid l h
    rw [addAll_points]
    show l.foldl (bufAppend N) [] = l.tail
    rw [foldl_bufAppend_eq_drop, h]
    simp

/-- Witness for C3: inserting three samples into an empty buffer of
capacity two leaves the last two, in order. -/
theorem dataBuffer_bounded_fifo_witness :
    ([sampleAt 0, sampleAt 1, sampleAt 2].length = 2 + 1) ∧
    (addAll "P" [sampleAt 0, sampleAt 1, sampleAt 2]
        { maxSize := 2, buffer := [] }).points "P" =
      [sampleAt 1, sampleAt 2] :=
  ⟨rfl, dataBuffer_bounded_fifo.2.2 2 "P" [sampleAt 0, sampleAt 1, sampleAt 2]
    rfl⟩

/-- C8: resolving an unknown or already-resolved alert id fails without
changing any state; a first resolve of an alert in the active set
(Active or Acknowledged) succeeds, marks the stored alert resolved with a
resolution time and removes it from the active set; acknowledging a
non-existent or already-resolved alert id fails without changing any
state; and a second resolve of the same id fails and leaves the
post-resolve state unchanged. -/
theorem alert_lifecycle_resolve_ack :
    (∀ (now : Nat) (m : AlertManager) (aid : String),
        aid ∉ m.activeIds → resolveAlert now m aid = (false, m)) ∧
    (∀ (now : Nat) (m : AlertManager) (aid : String),
        m.activeIds.Nodup → aid ∈ m.activeIds →
        (resolveAlert now m aid).1 = true ∧
        ((resolveAlert now m aid).2).alerts.lookup aid =
          (m.alerts.lookup aid).map
            (fun a => { a with resolved := true, resolvedTime := some now }) ∧
        aid ∉ ((resolveAlert now m aid).2).activeIds) ∧
    (∀ (now : Nat) (m : AlertManager) (aid user : String),
        aid ∉ m.activeIds → acknowledgeAlert now m aid user = (false, m)) ∧
    (∀ (now later : Nat) (m : AlertManager) (aid : String),
        m.activeIds.Nodup → aid ∈ m.activeIds →
        resolveAlert later (resolveAlert now m aid).2 aid =
          (false, (resolveAlert now m aid).2)) := by
  have hfail : ∀ (now : Nat) (m : AlertManager) (aid : String),
      aid ∉ m.activeIds → resolveAlert now m aid = (false, m) := by
    intro now m aid h
    unfold resolveAlert
    rw [if_neg h]
  have hnotmem : ∀ (now : Nat) (m : AlertManager) (aid : String),
      m.activeIds.Nodup → aid ∈ m.activeIds →
      aid ∉ ((resolveAlert now m aid).2).activeIds := by
    intro now m aid hnd hm
    unfold resolveAlert
    rw [if_pos hm]
    exact hnd.not_mem_erase
  refine ⟨hfail, ?_, ?_, ?_⟩
  · intro now m aid hnd hm
    refine ⟨?_, ?_, hnotmem now m aid hnd hm⟩
    · unfold resolveAlert
      rw [if_pos hm]
    · unfold resolveAlert
      rw [if_pos hm]
      dsimp only
      unfold updateAlert
      exact lookup_updateEntry m.alerts aid _
  · intro now m aid user h
    unfold acknowledgeAlert
    rw [if_neg h]
  · intro now later m aid hnd hm
    exact hfail later _ aid (hnotmem now m aid hnd hm)

/-- Witness for C8: on a manager with one active alert `A1`, the second
resolve fails and leaves the state unchanged, and acknowledging an unknown
id fails. -/
theorem alert_lifecycle_resolve_ack_witness :
    resolveAlert 2 (resolveAlert 1 mgrOneActive "A1").2 "A1" =
      (false, (resolveAlert 1 mgrOneActive "A1").2) ∧
    acknowledgeAlert 0 mgrOneActive "ZZ" "operator" = (false, mgrOneActive) :=
  ⟨alert_lifecycle_resolve_ack.2.2.2 1 2 mgrOneActive "A1" (by decide)
      (by decide),
   alert_lifecycle_resolve_ack.2.2.1 0 mgrOneActive "ZZ" "operator"
      (by decide)⟩

/-! Helper lemmas for the scan trace. -/

theorem scanTrace_points (pid : String) (events : List (Nat × ReadOutcome))
    (b : DataBuffer) :
    (scanTrace pid events b).points pid =
      (okSamples pid events).foldl (bufAppend b.maxSize) (b.points pid) := by
  induction events generalizing b with
  | nil => rfl
  | cons e es ih =>
    obtain ⟨t, oc⟩ := e
    cases oc with
    | ok v =>
      have hstep : scanTrace pid ((t, ReadOutcome.ok v) :: es) b
          = scanTrace pid es (b.addPoint pid (stampSample pid t v)) := rfl
      have hok : okSamples pid ((t, ReadOutcome.ok v) :: es)
          = stampSample pid t v :: okSamples pid es := by
        simp [okSamples, List.filterMap_cons]
      rw [hstep, ih, hok, List.foldl_cons, addPoint_points_self,
        addPoint_maxSize]
    | failure msg =>
      have hstep : scanTrace pid ((t, ReadOutcome.failure msg) :: es) b
          = scanTrace pid es b := rfl
      have hskip : okSamples pid ((t, ReadOutcome.failure msg) :: es)
          = okSamples pid es := by
        simp [okSamples, List.filterMap_cons]
      rw [hstep, ih, hskip]

theorem okSamples_ts_sublist (pid : String)
    (events : List (Nat × ReadOutcome)) :
    ((okSamples pid events).map MonitoringData.timestamp).Sublist
      (events.map Prod.fst) := by
  induction events with
  | nil => simp [okSamples]
  | cons e es ih =>
    obtain ⟨t, oc⟩ := e
    cases oc with
    | ok v =>
      have hok : okSamples pid ((t, ReadOutcome.ok v) :: es)
          = stampSample pid t v :: okSamples pid es := by
        simp [okSamples, List.filterMap_cons]
      rw [hok, List.map_cons, List.map_cons]
      exact List.Sublist.cons₂ _ ih
    | failure msg =>
      have hskip : okSamples pid ((t, ReadOutcome.failure msg) :: es)
          = okSamples pid es := by
        simp [okSamples, List.filterMap_cons]
      rw [hskip, List.map_cons]
      exact List.Sublist.cons _ ih

/-- C9: the timestamps of the samples held in a point's buffer are
non-decreasing in buffer order, for every scan trace of the single scan
task of that point whose clock readings (the per-iteration stamping
times) are non-decreasing - eviction and failed reads never disturb the
order. -/
theorem buffer_timestamps_monotone (pid : String) (N : Nat)
    (events : List (Nat × ReadOutcome))
    (h : (events.map Prod.fst).Pairwise (· ≤ ·)) :
    (((scanTrace pid events { maxSize := N, buffer := [] }).points pid).map
        MonitoringData.timestamp).Pairwise (· ≤ ·) := by
  rw [scanTrace_points]
  have h1 : ({ maxSize := N, buffer := [] } : DataBuffer).maxSize = N := rfl
  have h2 : ({ maxSize := N, buffer := [] } : DataBuffer).points pid = [] :=
    rfl
  rw [h1, h2, foldl_bufAppend_eq_drop, List.map_drop]
  exact List.Pairwise.sublist
    ((List.drop_sublist _ _).trans (okSamples_ts_sublist pid events)) h

/-- Witness for C9: a concrete three-event trace with non-decreasing clock
readings yields a buffer with non-decreasing timestamps. -/
theorem buffer_timestamps_monotone_witness :
    (traceEvents.map Prod.fst).Pairwise (· ≤ ·) ∧
    (((scanTrace "P" traceEvents { maxSize := 10, buffer := [] }).points
        "P").map MonitoringData.timestamp).Pairwise (· ≤ ·) :=
  ⟨by decide, buffer_timestamps_monotone "P" 10 traceEvents (by decide)⟩

/-! Helper lemmas for the sort order of `get_active_alerts`. -/

theorem alertSortKeyLe_trans : ∀ (a b c : Alert),
    alertSortKeyLe a b = true → alertSortKeyLe b c = true →
    alertSortKeyLe a c = true := by
  intro a b c
  simp only [alertSortKeyLe, decide_eq_true_eq]
  omega

theorem alertSortKeyLe_total : ∀ (a b : Alert),
    (alertSortKeyLe a b || alertSortKeyLe b a) = true := by
  intro a b
  simp only [alertSortKeyLe, Bool.or_eq_true, decide_eq_true_eq]
  omega

/-- C10: `get_active_alerts` returns exactly the alerts of the active set
(as a permutation of `list(active_alerts.values())`), sorted descending
lexicographically on `(priority.value, timestamp)` - highest priority
first, and within equal priority newest first - and with a priority
filter it returns exactly the active alerts of that priority. -/
theorem get_active_alerts_exact_sorted :
    (∀ m : AlertManager, (getActiveAlerts m none).Perm (activeAlertValues m)) ∧
    (∀ (m : AlertManager) (pf : Option AlertPriority),
        (getActiveAlerts m pf).Pairwise (fun a b =>
          b.priority.value < a.priority.value ∨
            (b.priority.value = a.priority.value ∧
              b.timestamp ≤ a.timestamp))) ∧
    (∀ (m : AlertManager) (p : AlertPriority),
        (getActiveAlerts m (some p)).Perm
          ((activeAlertValues m).filter (fun (a : Alert) =>
            a.priority = p)) ∧
        ∀ a ∈ getActiveAlerts m (some p), a.priority = p) := by
  refine ⟨?_, ?_, ?_⟩
  · intro m
    exact List.mergeSort_perm (activeAlertValues m) alertSortKeyLe
  · intro m pf
    cases pf with
    | none =>
      exact (List.sorted_mergeSort alertSortKeyLe_trans alertSortKeyLe_total
        (activeAlertValues m)).imp (fun h => of_decide_eq_true h)
    | some p =>
      exact (List.sorted_mergeSort alertSortKeyLe_trans alertSortKeyLe_total
        ((activeAlertValues m).filter (fun (a : Alert) =>
          a.priority = p))).imp (fun h => of_decide_eq_true h)
  · intro m p
    constructor
    · exact List.mergeSort_perm _ _
    · intro a ha
      have hmem : a ∈ (activeAlertValues m).filter (fun (a : Alert) =>
          a.priority = p) :=
        (List.mergeSort_perm _ _).subset ha
      exact of_decide_eq_true (List.mem_filter.mp hmem).2

/-- Witness for C10: on the one-alert manager, the HIGH-filtered list
contains `A1`, and the claim theorem yields its priority. -/
theorem get_active_alerts_exact_sorted_witness :
    baseAlert ∈ getActiveAlerts mgrOneActive (some AlertPriority.high) ∧
    baseAlert.priority = AlertPriority.high :=
  ⟨(List.mergeSort_perm _ _).mem_iff.mpr (by decide),
   (get_active_alerts_exact_sorted.2.2 mgrOneActive AlertPriority.high).2
     baseAlert ((List.mergeSort_perm _ _).mem_iff.mpr (by decide))⟩

/-! Helper lemmas for the Modbus codecs. -/

theorem wordsToBytes_length (vs : List Nat) :
    (wordsToBytes vs).length = 2 * vs.length := by
  induction vs with
  | nil => rfl
  | cons v r ih =>
    show (beWordBytes v ++ wordsToBytes r).length = 2 * (r.length + 1)
    simp [beWordBytes, ih]
    omega

theorem parseWords_wordsToBytes (vs : List Nat)
    (h : ∀ v ∈ vs, v < 65536) :
    parseWords (wordsToBytes vs) = some vs := by
  induction vs with
  | nil => rfl
  | cons v r ih =>
    have hv : v < 65536 := h v (List.mem_cons_self v r)
    have hr := ih (fun x hx => h x (List.mem_cons_of_mem v hx))
    show parseWords (v / 256 :: v % 256 :: wordsToBytes r) = some (v :: r)
    show (parseWords (wordsToBytes r)).map
      (fun vs => beWord (v / 256) (v % 256) :: vs) = some (v :: r)
    rw [hr]
    show some (beWord (v / 256) (v % 256) :: r) = some (v :: r)
    have : beWord (v / 256) (v % 256) = v := by
      unfold beWord
      omega
    rw [this]

theorem decodeRTU_framed (u bc : Nat) (w : List Nat) :
    decodeRTUResponse (([u, 4, bc] ++ w)
      ++ [calculateCrc ([u, 4, bc] ++ w) % 256,
          calculateCrc ([u, 4, bc] ++ w) / 256])
    = parseWords ((w ++ [calculateCrc ([u, 4, bc] ++ w) % 256,
          calculateCrc ([u, 4, bc] ++ w) / 256]).take bc) := by
  generalize hc : calculateCrc ([u, 4, bc] ++ w) = c
  have hlen : (([u, 4, bc] ++ w) ++ [c % 256, c / 256]).length
      = w.length + 5 := by
    simp
    try omega
  have hbl : ([u, 4, bc] ++ w).length
      = (([u, 4, bc] ++ w) ++ [c % 256, c / 256]).length - 2 := by
    rw [hlen]
    simp
    try omega
  have hdrop2 : (([u, 4, bc] ++ w) ++ [c % 256, c / 256]).drop
      ((([u, 4, bc] ++ w) ++ [c % 256, c / 256]).length - 2)
      = [c % 256, c / 256] := List.drop_left' hbl
  have htake2 : (([u, 4, bc] ++ w) ++ [c % 256, c / 256]).take
      ((([u, 4, bc] ++ w) ++ [c % 256, c / 256]).length - 2)
      = [u, 4, bc] ++ w := List.take_left' hbl
  have hrecv : receivedCrcOf (([u, 4, bc] ++ w) ++ [c % 256, c / 256]) = c := by
    unfold receivedCrcOf
    rw [hdrop2]
    show leWord (c % 256) (c / 256) = c
    unfold leWord
    omega
  have hcomp : computedCrcOf (([u, 4, bc] ++ w) ++ [c % 256, c / 256]) = c := by
    unfold computedCrcOf
    rw [htake2, hc]
  have hcons : ([u, 4, bc] ++ w) ++ [c % 256, c / 256]
      = u :: 4 :: bc :: (w ++ [c % 256, c / 256]) := by
    simp
  unfold decodeRTUResponse
  rw [if_pos (by rw [hlen]; omega)]
  rw [if_pos ⟨by rw [hrecv, hcomp], by rw [hcons]; rfl⟩]
  rw [hcons]
  rfl

/-- C6: the Modbus RTU decoder rejects every frame whose trailing two-byte
CRC (little-endian) differs from the CRC-16 recomputed over the preceding
bytes with polynomial 0xA001, initial value 0xFFFF, LSB-first per byte
(short frames are likewise rejected); and decoding the spec-modelled
server response frame carrying payload `values` (with its appended CRC)
recovers exactly those register values. -/
theorem rtu_crc_rejects_and_roundtrips :
    (∀ resp : List Nat, resp.length < 5 → decodeRTUResponse resp = none) ∧
    (∀ resp : List Nat, 5 ≤ resp.length →
        receivedCrcOf resp ≠ computedCrcOf resp →
        decodeRTUResponse resp = none) ∧
    (∀ (unitId : Nat) (values : List Nat), unitId < 256 →
        (∀ v ∈ values, v < 65536) → 2 * values.length < 256 →
        decodeRTUResponse (encodeRTUResponse unitId values) = some values) := by
  refine ⟨?_, ?_, ?_⟩
  · intro resp h
    unfold decodeRTUResponse
    rw [if_neg (by omega)]
  · intro resp h5 hne
    unfold decodeRTUResponse
    rw [if_pos h5, if_neg (fun hcond => hne hcond.1)]
  · intro u vs hu hv hbc
    have henc : encodeRTUResponse u vs
        = ([u, 4, 2 * vs.length] ++ wordsToBytes vs)
          ++ [calculateCrc ([u, 4, 2 * vs.length] ++ wordsToBytes vs) % 256,
              calculateCrc ([u, 4, 2 * vs.length] ++ wordsToBytes vs) / 256] :=
      rfl
    rw [henc, decodeRTU_framed]
    have htake : ((wordsToBytes vs)
        ++ [calculateCrc ([u, 4, 2 * vs.length] ++ wordsToBytes vs) % 256,
            calculateCrc ([u, 4, 2 * vs.length] ++ wordsToBytes vs) / 256]).take
          (2 * vs.length) = wordsToBytes vs :=
      List.take_left' (wordsToBytes_length vs)
    rw [htake]
    exact parseWords_wordsToBytes vs hv

/-- Witness for C6: a short frame is rejected, and a concrete two-register
response round-trips. -/
theorem rtu_crc_rejects_and_roundtrips_witness :
    decodeRTUResponse [1, 2, 3] = none ∧
    decodeRTUResponse (encodeRTUResponse 1 [258, 772]) = some [258, 772] :=
  ⟨rtu_crc_rejects_and_roundtrips.1 [1, 2, 3] (by decide),
   rtu_crc_rejects_and_roundtrips.2.2 1 [258, 772] (by decide) (by decide)
     (by decide)⟩

/-- C7: the encoded Modbus TCP holding-register request is the 7-byte
big-endian MBAP header (transaction id, protocol id 0, length 6, unit id)
followed by function code 0x03 and the big-endian 16-bit address and
count; and decoding the spec-modelled well-formed server response to a
request with count in [1,125] returns exactly `count` 16-bit values equal
to the server's source register values. -/
theorem tcp_request_layout_and_roundtrip :
    (∀ (tid uid addr cnt : Nat), 1 ≤ cnt → cnt ≤ 125 →
        encodeReadHoldingRegisters tid uid addr cnt =
          [tid / 256, tid % 256, 0, 0, 0, 6, uid, 3,
           addr / 256, addr % 256, cnt / 256, cnt % 256]) ∧
    (∀ (tid uid : Nat) (values : List Nat), 1 ≤ values.length →
        values.length ≤ 125 → (∀ v ∈ values, v < 65536) →
        decodeTCPResponse (serverEncodeTCPResponse tid uid values) =
          some values) := by
  constructor
  · intro tid uid addr cnt h1 h2
    simp [encodeReadHoldingRegisters, beWordBytes]
  · intro tid uid vs h1 h2 hv
    have hcons : serverEncodeTCPResponse tid uid vs
        = tid / 256 :: tid % 256 :: 0 :: 0
          :: (3 + 2 * vs.length) / 256 :: (3 + 2 * vs.length) % 256
          :: uid :: 3 :: (2 * vs.length) :: wordsToBytes vs := by
      simp [serverEncodeTCPResponse, beWordBytes]
    rw [hcons]
    unfold decodeTCPResponse
    rw [if_pos (by simp; try omega)]
    rw [if_pos (by simp [List.getD_cons_succ, List.getD_cons_zero])]
    have hdrop : (tid / 256 :: tid % 256 :: 0 :: 0
        :: (3 + 2 * vs.length) / 256 :: (3 + 2 * vs.length) % 256
        :: uid :: 3 :: (2 * vs.length) :: wordsToBytes vs).drop 9
        = wordsToBytes vs := rfl
    have hgd : (tid / 256 :: tid % 256 :: 0 :: 0
        :: (3 + 2 * vs.length) / 256 :: (3 + 2 * vs.length) % 256
        :: uid :: 3 :: (2 * vs.length) :: wordsToBytes vs).getD 8 0
        = 2 * vs.length := by
      simp [List.getD_cons_succ, List.getD_cons_zero]
    rw [hdrop, hgd, ← wordsToBytes_length vs, List.take_length]
    exact parseWords_wordsToBytes vs hv

/-- Witness for C7: a concrete request encodes to the stated MBAP layout,
and a concrete two-register response round-trips. -/
theorem tcp_request_layout_and_roundtrip_witness :
    encodeReadHoldingRegisters 1 17 2 2 =
      [0, 1, 0, 0, 0, 6, 17, 3, 0, 2, 0, 2] ∧
    decodeTCPResponse (serverEncodeTCPResponse 1 17 [4660, 22136]) =
      some [4660, 22136] :=
  ⟨tcp_request_layout_and_roundtrip.1 1 17 2 2 (by decide) (by decide),
   tcp_request_layout_and_roundtrip.2 1 17 [4660, 22136] (by decide)
     (by decide) (by decide)⟩

end Scada
